import Mathlib

/-!
Verification development for the batch style-transfer script
(`tools/batch_style.py`).  The script is shallowly embedded: PIL, tifffile
and torch are external libraries, so their operations appear as explicit
environment records (`LoadEnv`, `SaveEnv`, `StylizeEnv`) whose fields model
the observable behaviour of one library call (success value or raised
exception).  Python exceptions are modelled by `PyErr`; `except` clauses are
translated by testing the class predicate the clause names.  Byte strings
(ICC profiles) are `List Nat`; pixel rasters are `List Nat`.
-/

set_option autoImplicit false

namespace BatchStyle

/-- A byte string, e.g. the contents of an ICC profile file. -/
abbrev ByteBlob := List Nat

/-- PIL pixel modes that the script mentions (`RGB`, `CMYK`), plus a
constructor for every other mode string so the type is not artificially
restricted. -/
inductive Mode where
  | RGB
  | CMYK
  | otherMode (s : String)
deriving DecidableEq

/-- A Python exception value.  `osError name msg` stands for `OSError` or any
of its subclasses (`FileNotFoundError`, `PIL.UnidentifiedImageError`, ...),
with `name` the concrete class name `type(err).__name__`.
`pyCMSError` models `PIL.ImageCms.PyCMSError`, which derives from `Exception`
directly, not from `OSError`.  `valueError` models `ValueError`. -/
inductive PyErr where
  | osError (name : String) (msg : String)
  | pyCMSError (msg : String)
  | valueError (msg : String)
  | keyboardInterrupt
deriving DecidableEq

/-- The class name `type(err).__name__`, as used by `print_error`. -/
def PyErr.name : PyErr → String
  | .osError n _ => n
  | .pyCMSError _ => "PyCMSError"
  | .valueError _ => "ValueError"
  | .keyboardInterrupt => "KeyboardInterrupt"

/-- The message `str(err)`. -/
def PyErr.msg : PyErr → String
  | .osError _ m => m
  | .pyCMSError m => m
  | .valueError m => m
  | .keyboardInterrupt => ""

/-- Whether the exception is caught by `except OSError`. -/
def PyErr.isOSError : PyErr → Bool
  | .osError _ _ => true
  | _ => false

/-- Whether the exception is caught by an `except` clause naming `ValueError`. -/
def PyErr.isValueError : PyErr → Bool
  | .valueError _ => true
  | _ => false

/-- An in-memory PIL image: size, pixel mode, raster data and the optional
embedded ICC profile (`image.info` entry `icc_profile`). -/
structure Image where
  width : Nat
  height : Nat
  mode : Mode
  data : List Nat
  icc : Option ByteBlob
deriving DecidableEq

/-- The line `print_error` writes to `sys.stderr`:
`format` string `\x1b[31m` + class name + `:\x1b[0m ` + message. -/
def print_error (e : PyErr) : String :=
  "\x1b[31m" ++ e.name ++ ":\x1b[0m " ++ e.msg

/-- One invocation of `ImageCms.profileToProfile` (through `prof_to_prof`):
the source profile bytes, destination profile bytes and requested
`outputMode`. -/
structure ConvCall where
  src : ByteBlob
  dst : ByteBlob
  outputMode : Mode
deriving DecidableEq

/-- Environment for one `load_image` call: the behaviour of the library
operations it performs.  `openImage` is `Image.open(path)` (which raises
`OSError` subclasses on missing or undecodable files); `readProof` is
`Path(proof_prof).read_bytes()`; `cms` is `ImageCms.profileToProfile`
(which raises `PyCMSError` on bad profiles or mode combinations);
`rgbCast` is the pixel transformation PIL performs in
`image.convert(Mode.RGB)` when the image is not already in RGB mode. -/
structure LoadEnv where
  openImage : Except PyErr Image
  readProof : Except PyErr ByteBlob
  cms : Image → ByteBlob → ByteBlob → Mode → Except PyErr Image
  rgbCast : Mode → List Nat → List Nat

/-- Model of `image.convert(RGB)`: the result is always in RGB mode; when the image
already is RGB the raster is copied unchanged, otherwise PIL recomputes the
pixels (modelled by `rgbCast`).  `info` (hence the embedded profile) is
preserved. -/
def Image.convertRGB (env : LoadEnv) (img : Image) : Image :=
  if img.mode = Mode.RGB then { img with mode := Mode.RGB }
  else { img with mode := Mode.RGB, data := env.rgbCast img.mode img.data }

/-- Model of `prof_to_prof(image, src_prof, dst_prof, outputMode=m)`: wraps both
profiles in `io.BytesIO` and calls `ImageCms.profileToProfile`. -/
def prof_to_prof (env : LoadEnv) (image : Image) (src_prof dst_prof : ByteBlob)
    (outputMode : Mode) : Except PyErr Image :=
  env.cms image src_prof dst_prof outputMode

/-- Result of `load_image`, together with the trace of `prof_to_prof`
invocations made along the way.  `exited code line` is
`print_error(err); sys.exit(code)`; `uncaught` is an exception that escapes
the `except OSError` clause. -/
inductive LoadOutcome where
  | ok (img : Image) (calls : List ConvCall)
  | exited (code : Nat) (stderrLine : String)
  | uncaught (e : PyErr) (calls : List ConvCall)
deriving DecidableEq

/-- The `except OSError as err: print_error(err); sys.exit(1)` clause:
an `OSError` is printed and the process exits with status 1; any other
exception propagates out of `load_image`. -/
def handleLoadErr (e : PyErr) (calls : List ConvCall) : LoadOutcome :=
  if e.isOSError then LoadOutcome.exited 1 (print_error e)
  else LoadOutcome.uncaught e calls

/-- Line 30 of the script: the source profile is the embedded
`icc_profile` when present, else the module-level `srgb_profile`. -/
def srcProfOf (srgb : ByteBlob) (img : Image) : ByteBlob :=
  img.icc.getD srgb

/-- Lines 29-32: when the file carries no embedded profile the image is
coerced to RGB immediately; otherwise it is left untouched at this point. -/
def imageAfterTag (env : LoadEnv) (img : Image) : Image :=
  match img.icc with
  | some _ => img
  | none => img.convertRGB env

/-- Model of `load_image(path, proof_prof=None)`, lines 25-42 of the script.
`proof_prof` is the optional proofing-profile path. -/
def load_image (srgb : ByteBlob) (env : LoadEnv) (proof_prof : Option String) :
    LoadOutcome :=
  match env.openImage with
  | .error e => handleLoadErr e []
  | .ok img =>
    let src_prof := srcProfOf srgb img
    let image := imageAfterTag env img
    match proof_prof with
    | none =>
      if src_prof = srgb then
        LoadOutcome.ok (image.convertRGB env) []
      else
        match prof_to_prof env image src_prof srgb Mode.RGB with
        | .ok r => LoadOutcome.ok r [⟨src_prof, srgb, Mode.RGB⟩]
        | .error e => handleLoadErr e [⟨src_prof, srgb, Mode.RGB⟩]
    | some _ =>
      match env.readProof with
      | .error e => handleLoadErr e []
      | .ok pp =>
        match prof_to_prof env image src_prof pp Mode.CMYK with
        | .error e => handleLoadErr e [⟨src_prof, pp, Mode.CMYK⟩]
        | .ok cmyk =>
          match prof_to_prof env cmyk pp srgb Mode.RGB with
          | .error e =>
            handleLoadErr e [⟨src_prof, pp, Mode.CMYK⟩, ⟨pp, srgb, Mode.RGB⟩]
          | .ok r =>
            LoadOutcome.ok r [⟨src_prof, pp, Mode.CMYK⟩, ⟨pp, srgb, Mode.RGB⟩]

/-- A `pathlib.Path` value as the save functions use it: only its `suffix`
(the final dot-extension of the last component, or the empty string) is ever
consulted, so the path is modelled by the raw string plus that suffix. -/
structure PyPath where
  raw : String
  suffix : String
deriving DecidableEq

/-- The Python string method `lower()` (for the ASCII extensions the script
compares against).  Defined character-wise over the underlying list so that
it evaluates inside the kernel; it agrees with `String.toLower`. -/
def lowerStr (s : String) : String :=
  ⟨s.data.map Char.toLower⟩

/-- A raw numpy array (`np.ndarray`): shape plus flattened entries.  Only its
identity matters to the save dispatch. -/
structure NDArray where
  shape : List Nat
  entries : List Nat
deriving DecidableEq

/-- The runtime value handed to `save_image`: either a decoded PIL image
object or a raw numpy array (the two representations `st.get_image` can
return). -/
inductive PyImage where
  | pil (img : Image)
  | nd (a : NDArray)
deriving DecidableEq

/-- The keyword arguments `save_pil` passes to `image.save`. -/
structure PilKwargs where
  icc_profile : ByteBlob
  quality : Option Nat
  subsampling : Option Nat
deriving DecidableEq

/-- One entry of the `extratags` list handed to `TiffWriter.save`:
`(name, dtype, count, value, writeonce)`.  `TIFF.DATATYPES.BYTE` is the
numeric code 1. -/
structure ExtraTag where
  name : String
  dtype : Nat
  count : Nat
  value : ByteBlob
  writeonce : Bool
deriving DecidableEq

/-- The arguments `save_tiff` passes to `TiffWriter.save`. -/
structure TiffArgs where
  photometric : String
  resolution : Nat × Nat
  extratags : List ExtraTag
deriving DecidableEq

/-- Environment for a save: behaviour of the actual encoder calls
(`image.save` and `TiffWriter.save`), which may raise. -/
structure SaveEnv where
  pilWrite : PilKwargs → Except PyErr Unit
  tiffWrite : TiffArgs → Except PyErr Unit

/-- Result of `save_image`: the encoder invoked with its arguments on
success, `exited` for the print-and-exit error handlers, `raised` for an
exception that propagates out. -/
inductive SaveResult where
  | wrotePil (kwargs : PilKwargs)
  | wroteTiff (args : TiffArgs)
  | exited (code : Nat) (stderrLine : String)
  | raised (e : PyErr)
deriving DecidableEq

/-- Lines 47-52 of the script: the keyword arguments `save_pil` builds.
`icc_profile` is always the canonical profile; `.jpg`/`.jpeg` add
`quality=95, subsampling=0`; `.webp` adds `quality=95`. -/
def pil_kwargs (srgb : ByteBlob) (path : PyPath) : PilKwargs :=
  let base : PilKwargs := ⟨srgb, none, none⟩
  if lowerStr path.suffix = ".jpg" ∨ lowerStr path.suffix = ".jpeg" then
    { base with quality := some 95, subsampling := some 0 }
  else if lowerStr path.suffix = ".webp" then
    { base with quality := some 95 }
  else base

/-- Model of `save_pil(path, image)`, lines 45-56: build the kwargs, call
`image.save`, and catch `(OSError, ValueError)` with print-and-exit. -/
def save_pil (srgb : ByteBlob) (env : SaveEnv) (path : PyPath) (_image : Image) :
    SaveResult :=
  let kwargs := pil_kwargs srgb path
  match env.pilWrite kwargs with
  | .ok _ => SaveResult.wrotePil kwargs
  | .error e =>
    if e.isOSError || e.isValueError then SaveResult.exited 1 (print_error e)
    else SaveResult.raised e

/-- The arguments line 60-63 builds: `photometric=rgb`,
`resolution=(72, 72)`, and the canonical profile as a raw
`InterColorProfile` byte tag. -/
def tiff_args (srgb : ByteBlob) : TiffArgs :=
  { photometric := "rgb"
    resolution := (72, 72)
    extratags := [⟨"InterColorProfile", 1, srgb.length, srgb, false⟩] }

/-- Model of `save_tiff(path, image)`, lines 59-66: write through `TiffWriter` and
catch `OSError` with print-and-exit. -/
def save_tiff (srgb : ByteBlob) (env : SaveEnv) (_path : PyPath) (_a : NDArray) :
    SaveResult :=
  match env.tiffWrite (tiff_args srgb) with
  | .ok _ => SaveResult.wroteTiff (tiff_args srgb)
  | .error e =>
    if e.isOSError then SaveResult.exited 1 (print_error e)
    else SaveResult.raised e

/-- Model of `save_image(path, image)`, lines 69-77: dispatch on the runtime type of
`image` and the lower-cased path suffix; any other combination raises
`ValueError` with a fixed message. -/
def save_image (srgb : ByteBlob) (env : SaveEnv) (path : PyPath)
    (image : PyImage) : SaveResult :=
  match image with
  | .pil img => save_pil srgb env path img
  | .nd a =>
    if lowerStr path.suffix = ".tif" ∨ lowerStr path.suffix = ".tiff" then
      save_tiff srgb env path a
    else
      SaveResult.raised
        (PyErr.valueError "Unsupported combination of image type and extension")

/-- Python true division `a / b` on integers, which raises
`ZeroDivisionError` when `b` is zero; otherwise an exact rational
(floating-point rounding is not modelled). -/
def pyDiv (a b : Nat) : Option ℚ :=
  if b = 0 then none else some ((a : ℚ) / (b : ℚ))

/-- Value of `int(pow(q, 1/2) * dim)` for a nonnegative rational `q`: the floor of
`sqrt(q) * dim`, computed exactly via the integer square root of
`floor(q * dim^2)` (the two agree; see `floorSqrtMul_eq`). -/
def floorSqrtMul (q : ℚ) (dim : Nat) : Nat :=
  Nat.sqrt (⌊q * (dim : ℚ) * (dim : ℚ)⌋).toNat

/-- Model of `get_safe_scale(w, h, dim)`, lines 80-83:
`int(pow(w/h if w > h else h/w, 1/2) * dim)`.  `none` models the
`ZeroDivisionError` raised when the divisor is zero. -/
def get_safe_scale (w h dim : Nat) : Option Nat :=
  match (if w > h then pyDiv w h else pyDiv h w) with
  | none => none
  | some q => some (floorSqrtMul q dim)

/-- The class of a `torch.device` (`device.type`): the string `cpu` or
`cuda`. -/
inductive DevType where
  | cpu
  | cuda
deriving DecidableEq

/-- A `torch.device`: its class and, for GPUs, the index. -/
structure TorchDevice where
  devType : DevType
  index : Option Nat
deriving DecidableEq

/-- Line 97: the device list the script builds — always the singleton
`[torch.device(cuda:0 if torch.cuda.is_available() else cpu)]`. -/
def torch_devices (cudaAvailable : Bool) : List TorchDevice :=
  [if cudaAvailable then ⟨DevType.cuda, some 0⟩ else ⟨DevType.cpu, none⟩]

/-- Lines 98-103: the two validation checks.  The first compares the number
of distinct device classes (`len(set(device.type for device in devices))`)
with 1; the second checks `1 <= len(devices) <= 2`.  Returns
`some (exit code, message)` when the script prints a message and exits, and
`none` when the list is accepted. -/
def validate_devices (devices : List TorchDevice) : Option (Nat × String) :=
  if (devices.map TorchDevice.devType).toFinset.card ≠ 1 then
    some (1, "Devices must all be the same type.")
  else if ¬(1 ≤ devices.length ∧ devices.length ≤ 2) then
    some (1, "Only 1 or 2 devices are supported.")
  else none

/-- Environment for one `stylize` job: the two load environments, whether a
CUDA runtime is available, the behaviour of the long-running
`st.stylize` call (normal return, `KeyboardInterrupt`, or another
exception), the value `st.get_image(image_type)` returns afterwards, and
the save environment. -/
structure StylizeEnv where
  loadContent : LoadEnv
  loadStyle : LoadEnv
  cudaAvailable : Bool
  stStylize : Except PyErr Unit
  stGetImage : Option PyImage
  saveEnv : SaveEnv

/-- How one `stylize` job ends: normal fall-through, `sys.exit`, or an
uncaught exception. -/
inductive RunOutcome where
  | completed
  | exited (code : Nat) (msg : String)
  | raised (e : PyErr)
deriving DecidableEq

/-- Observable events of one `stylize` job: the device list built, the
`end_scale` passed to `st.stylize` (when reached), whether `st.stylize`
was invoked, and the `save_image` invocations (destination, image). -/
structure StylizeTrace where
  devices : List TorchDevice
  endScale : Option Nat
  stylizeCalled : Bool
  saveCalls : List (PyPath × PyImage)
deriving DecidableEq

/-- Lines 128-130 of the script: `output_image = st.get_image(image_type);
if output_image is not None: save_image(save_dir, output_image)`. -/
def stylize_tail (srgb : ByteBlob) (env : StylizeEnv) (save_dir : PyPath)
    (base : StylizeTrace) : RunOutcome × StylizeTrace :=
  match env.stGetImage with
  | none => (RunOutcome.completed, base)
  | some out =>
    let tr := { base with saveCalls := [(save_dir, out)] }
    match save_image srgb env.saveEnv save_dir out with
    | .exited c m => (RunOutcome.exited c m, tr)
    | .raised e => (RunOutcome.raised e, tr)
    | _ => (RunOutcome.completed, tr)

/-- Model of `stylize(content_path, styles_path, save_dir)`, lines 90-130.  The
loads, device validation, `end_scale = int(max(content_img.size))`, the
`try: st.stylize ... except KeyboardInterrupt: pass` block, and the final
retrieve-and-save step are translated in order; torch seeding and the
informational prints have no observable effect beyond stdout and are not
recorded. -/
def stylize (srgb : ByteBlob) (env : StylizeEnv)
    (_content_path _styles_path : String) (save_dir : PyPath) :
    RunOutcome × StylizeTrace :=
  let emptyTrace : StylizeTrace := ⟨[], none, false, []⟩
  match load_image srgb env.loadContent none with
  | .exited c m => (RunOutcome.exited c m, emptyTrace)
  | .uncaught e _ => (RunOutcome.raised e, emptyTrace)
  | .ok content_img _ =>
    match load_image srgb env.loadStyle none with
    | .exited c m => (RunOutcome.exited c m, emptyTrace)
    | .uncaught e _ => (RunOutcome.raised e, emptyTrace)
    | .ok _style_img _ =>
      let devices := torch_devices env.cudaAvailable
      match validate_devices devices with
      | some cm => (RunOutcome.exited cm.1 cm.2, { emptyTrace with devices })
      | none =>
        let end_scale := max content_img.width content_img.height
        let base : StylizeTrace :=
          ⟨devices, some end_scale, true, []⟩
        match env.stStylize with
        | .error PyErr.keyboardInterrupt => stylize_tail srgb env save_dir base
        | .error e => (RunOutcome.raised e, base)
        | .ok _ => stylize_tail srgb env save_dir base

/-! ### General lemmas about the embedded operations -/

theorem convertRGB_mode (env : LoadEnv) (img : Image) :
    (img.convertRGB env).mode = Mode.RGB := by
  unfold Image.convertRGB
  split <;> rfl

theorem convertRGB_data_of_rgb (env : LoadEnv) (img : Image)
    (h : img.mode = Mode.RGB) : (img.convertRGB env).data = img.data := by
  unfold Image.convertRGB
  rw [if_pos h]

/-! ### C1 -/

/-- C1: with no proofing profile, `load_image` returns an RGB-mode image and
calls the profile converter exactly once when the file carries an embedded
profile that differs byte-for-byte from the canonical one (converting it to
canonical with output mode RGB), and zero times otherwise: an embedded
profile byte-identical to canonical yields the image merely coerced to RGB
(raster unchanged when it already was RGB), and a file with no embedded
profile is assumed canonical and coerced to RGB with no conversion. -/
theorem load_image_no_proof_profile (srgb : ByteBlob) (env : LoadEnv)
    (img : Image)
    (hopen : env.openImage = Except.ok img)
    (hmode : ∀ i s d m r, env.cms i s d m = Except.ok r → r.mode = m) :
    (img.icc = none →
      load_image srgb env none =
          LoadOutcome.ok ((img.convertRGB env).convertRGB env) [] ∧
        ((img.convertRGB env).convertRGB env).mode = Mode.RGB) ∧
    (img.icc = some srgb →
      load_image srgb env none = LoadOutcome.ok (img.convertRGB env) [] ∧
        (img.convertRGB env).mode = Mode.RGB ∧
        (img.mode = Mode.RGB → (img.convertRGB env).data = img.data)) ∧
    (∀ p, img.icc = some p → p ≠ srgb →
      ∀ r, env.cms img p srgb Mode.RGB = Except.ok r →
        load_image srgb env none = LoadOutcome.ok r [⟨p, srgb, Mode.RGB⟩] ∧
          r.mode = Mode.RGB) := by
  refine ⟨?_, ?_, ?_⟩
  · intro hicc
    refine ⟨?_, convertRGB_mode env _⟩
    simp [load_image, hopen, srcProfOf, imageAfterTag, hicc]
  · intro hicc
    refine ⟨?_, convertRGB_mode env _, fun hm => convertRGB_data_of_rgb env img hm⟩
    simp [load_image, hopen, srcProfOf, imageAfterTag, hicc]
  · intro p hicc hne r hr
    refine ⟨?_, hmode _ _ _ _ _ hr⟩
    simp [load_image, hopen, srcProfOf, imageAfterTag, prof_to_prof, hicc, hne, hr]

/-- Concrete image used by the C1 witness: RGB raster tagged with the
canonical profile bytes `[7]`. -/
def wImgC1 : Image := ⟨4, 3, Mode.RGB, [1, 2, 3], some [7]⟩

/-- Concrete load environment used by the C1 witness. -/
def wEnvC1 : LoadEnv :=
  { openImage := Except.ok wImgC1
    readProof := Except.ok [9]
    cms := fun i _ _ m => Except.ok { i with mode := m }
    rgbCast := fun _ d => d }

theorem load_image_no_proof_profile_witness :
    wEnvC1.openImage = Except.ok wImgC1 ∧
      load_image [7] wEnvC1 none = LoadOutcome.ok (wImgC1.convertRGB wEnvC1) [] := by
  refine ⟨rfl, ?_⟩
  have h := load_image_no_proof_profile [7] wEnvC1 wImgC1 rfl
    (fun i s d m r h => by injection h with h2; rw [← h2])
  exact (h.2.1 rfl).1

/-! ### C2 -/

/-- C2: with a proofing profile path given, `load_image` performs exactly two
conversions — source profile to proofing profile with output mode CMYK, then
proofing profile to canonical with output mode RGB — with no short-circuit:
the statement holds for every image, in particular when the source profile
equals the canonical profile (see the witness). -/
theorem load_image_proofing_two_conversions (srgb : ByteBlob) (env : LoadEnv)
    (img : Image) (pp : ByteBlob) (path : String) (cmyk r : Image)
    (hopen : env.openImage = Except.ok img)
    (hread : env.readProof = Except.ok pp)
    (h1 : env.cms (imageAfterTag env img) (srcProfOf srgb img) pp Mode.CMYK =
      Except.ok cmyk)
    (h2 : env.cms cmyk pp srgb Mode.RGB = Except.ok r) :
    load_image srgb env (some path) =
      LoadOutcome.ok r
        [⟨srcProfOf srgb img, pp, Mode.CMYK⟩, ⟨pp, srgb, Mode.RGB⟩] := by
  simp [load_image, hopen, hread, prof_to_prof, h1, h2]

/-- Concrete image for the C2 witness: its embedded profile `[7]` IS the
canonical profile, showing that the proofing path still converts twice. -/
def wImgC2 : Image := ⟨2, 2, Mode.RGB, [4, 4], some [7]⟩

/-- Concrete load environment for the C2 witness. -/
def wEnvC2 : LoadEnv :=
  { openImage := Except.ok wImgC2
    readProof := Except.ok [9]
    cms := fun i _ _ m => Except.ok { i with mode := m }
    rgbCast := fun _ d => d }

theorem load_image_proofing_two_conversions_witness :
    srcProfOf [7] wImgC2 = [7] ∧
      load_image [7] wEnvC2 (some "proof.icc") =
        LoadOutcome.ok { wImgC2 with mode := Mode.RGB }
          [⟨[7], [9], Mode.CMYK⟩, ⟨[9], [7], Mode.RGB⟩] := by
  refine ⟨rfl, ?_⟩
  have h := load_image_proofing_two_conversions [7] wEnvC2 wImgC2 [9] "proof.icc"
    { wImgC2 with mode := Mode.CMYK } { wImgC2 with mode := Mode.RGB }
    rfl rfl rfl rfl
  exact h

/-! ### C3 -/

/-- Concrete environment for the C3 counterexample: the image carries an
embedded profile `[2]` different from the canonical `[1]`, and the colour
engine rejects the conversion with a `PyCMSError`. -/
def wEnvC3 : LoadEnv :=
  { openImage := Except.ok ⟨2, 2, Mode.RGB, [5], some [2]⟩
    readProof := Except.ok [9]
    cms := fun _ _ _ _ => Except.error (PyErr.pyCMSError "cannot build transform")
    rgbCast := fun _ d => d }

/-- C3 counterexample: a colour-conversion failure is NOT printed via
`print_error` and does not exit with status 1 — `except OSError` does not
catch `PyCMSError`, so the exception escapes `load_image` uncaught. -/
theorem load_image_pycms_uncaught_cex :
    load_image [1] wEnvC3 none =
      LoadOutcome.uncaught (PyErr.pyCMSError "cannot build transform")
        [⟨[2], [1], Mode.RGB⟩] := by
  rfl

/-- C3 (amended): I/O errors — file-open/decode failures and
proofing-profile read failures, which are `OSError`s — are caught, printed
to the error stream with the exception class name highlighted, and the
process exits with status 1; a colour-conversion failure
(`PyCMSError`, not an `OSError` subclass) instead propagates out of
`load_image` uncaught, bypassing `print_error` and the `sys.exit(1)`. -/
theorem load_image_error_policy (srgb : ByteBlob) (env : LoadEnv)
    (pf : Option String) :
    (∀ e, env.openImage = Except.error e →
      load_image srgb env pf =
        (if e.isOSError then LoadOutcome.exited 1 (print_error e)
         else LoadOutcome.uncaught e [])) ∧
    (∀ img e path, env.openImage = Except.ok img →
      env.readProof = Except.error e →
      load_image srgb env (some path) =
        (if e.isOSError then LoadOutcome.exited 1 (print_error e)
         else LoadOutcome.uncaught e [])) ∧
    (∀ img p m, env.openImage = Except.ok img → img.icc = some p → p ≠ srgb →
      env.cms img p srgb Mode.RGB = Except.error (PyErr.pyCMSError m) →
      load_image srgb env none =
        LoadOutcome.uncaught (PyErr.pyCMSError m) [⟨p, srgb, Mode.RGB⟩]) ∧
    (∀ img e path pp, env.openImage = Except.ok img →
      env.readProof = Except.ok pp →
      env.cms (imageAfterTag env img) (srcProfOf srgb img) pp Mode.CMYK =
        Except.error e →
      load_image srgb env (some path) =
        handleLoadErr e [⟨srcProfOf srgb img, pp, Mode.CMYK⟩]) := by
  refine ⟨?_, ?_, ?_, ?_⟩
  · intro e he
    cases pf <;> simp [load_image, he, handleLoadErr]
  · intro img e path hopen hread
    simp [load_image, hopen, hread, handleLoadErr]
  · intro img p m hopen hicc hne hcms
    simp [load_image, hopen, srcProfOf, imageAfterTag, prof_to_prof, hicc, hne,
      hcms, handleLoadErr, PyErr.isOSError]
  · intro img e path pp hopen hread hcms
    simp [load_image, hopen, hread, prof_to_prof, hcms]

/-- Concrete environment for the C3 witness: opening the file raises
`FileNotFoundError`, an `OSError` subclass. -/
def wEnvC3b : LoadEnv :=
  { openImage := Except.error (PyErr.osError "FileNotFoundError" "no such file")
    readProof := Except.ok [9]
    cms := fun i _ _ m => Except.ok { i with mode := m }
    rgbCast := fun _ d => d }

theorem load_image_error_policy_witness :
    load_image [1] wEnvC3b none =
      LoadOutcome.exited 1
        "\x1b[31mFileNotFoundError:\x1b[0m no such file" := by
  have h := (load_image_error_policy [1] wEnvC3b none).1
    (PyErr.osError "FileNotFoundError" "no such file") rfl
  simpa [PyErr.isOSError, print_error, PyErr.name, PyErr.msg] using h

/-! ### C4 -/

/-- C4: `save_image` dispatches on the destination extension
case-insensitively and always embeds the canonical profile: `.jpg`/`.jpeg`
encode with quality 95 and subsampling 0 (4:4:4), `.webp` with quality 95,
a `.tif`/`.tiff` destination holding a raw numeric array goes through the
dedicated TIFF writer with `photometric=rgb`, resolution `(72, 72)` and the
canonical profile bytes as a raw `InterColorProfile` extra tag (dtype code
`BYTE` = 1), and any other extension uses default encoder settings with the
canonical profile embedded. -/
theorem save_image_dispatch (srgb : ByteBlob) (env : SaveEnv) (path : PyPath)
    (img : Image) (a : NDArray)
    (hpil : env.pilWrite (pil_kwargs srgb path) = Except.ok ())
    (htiff : env.tiffWrite (tiff_args srgb) = Except.ok ()) :
    (∀ p q : PyPath, lowerStr p.suffix = lowerStr q.suffix →
      pil_kwargs srgb p = pil_kwargs srgb q) ∧
    (lowerStr path.suffix = ".jpg" ∨ lowerStr path.suffix = ".jpeg" →
      save_image srgb env path (PyImage.pil img) =
        SaveResult.wrotePil ⟨srgb, some 95, some 0⟩) ∧
    (lowerStr path.suffix = ".webp" →
      save_image srgb env path (PyImage.pil img) =
        SaveResult.wrotePil ⟨srgb, some 95, none⟩) ∧
    (lowerStr path.suffix ≠ ".jpg" → lowerStr path.suffix ≠ ".jpeg" →
      lowerStr path.suffix ≠ ".webp" →
      save_image srgb env path (PyImage.pil img) =
        SaveResult.wrotePil ⟨srgb, none, none⟩) ∧
    (lowerStr path.suffix = ".tif" ∨ lowerStr path.suffix = ".tiff" →
      save_image srgb env path (PyImage.nd a) =
        SaveResult.wroteTiff ⟨"rgb", (72, 72),
          [⟨"InterColorProfile", 1, srgb.length, srgb, false⟩]⟩) ∧
    (pil_kwargs srgb path).icc_profile = srgb := by
  refine ⟨?_, ?_, ?_, ?_, ?_, ?_⟩
  · intro p q h
    simp only [pil_kwargs, h]
  · intro h
    have hk : pil_kwargs srgb path = ⟨srgb, some 95, some 0⟩ := by
      simp [pil_kwargs, h]
    rw [hk] at hpil
    simp [save_image, save_pil, hk, hpil]
  · intro h
    have hk : pil_kwargs srgb path = ⟨srgb, some 95, none⟩ := by
      simp [pil_kwargs, h]
    rw [hk] at hpil
    simp [save_image, save_pil, hk, hpil]
  · intro h1 h2 h3
    have hk : pil_kwargs srgb path = ⟨srgb, none, none⟩ := by
      simp [pil_kwargs, h1, h2, h3]
    rw [hk] at hpil
    simp [save_image, save_pil, hk, hpil]
  · intro h
    have htiff2 : env.tiffWrite
        ⟨"rgb", (72, 72), [⟨"InterColorProfile", 1, srgb.length, srgb, false⟩]⟩ =
        Except.ok () := htiff
    simp [save_image, h, save_tiff, tiff_args, htiff2]
  · unfold pil_kwargs
    split <;> try split
    all_goals rfl

/-- Concrete save environment used by the C4 and C5 witnesses: both encoder
calls succeed. -/
def wEnvSave : SaveEnv := ⟨fun _ => Except.ok (), fun _ => Except.ok ()⟩

/-- Concrete PIL image for the save witnesses. -/
def wImgSave : Image := ⟨2, 2, Mode.RGB, [0, 1, 2, 3], none⟩

/-- Concrete numpy array for the save witnesses. -/
def wArrSave : NDArray := ⟨[2, 2, 3], [0, 0, 0]⟩

theorem save_image_dispatch_witness :
    save_image [7] wEnvSave ⟨"out.JPG", ".JPG"⟩ (PyImage.pil wImgSave) =
      SaveResult.wrotePil ⟨[7], some 95, some 0⟩ := by
  have h := (save_image_dispatch [7] wEnvSave ⟨"out.JPG", ".JPG"⟩ wImgSave
    wArrSave rfl rfl).2.1
  exact h (Or.inl (by decide))

/-! ### C5 -/

/-- C5 counterexample: the dispatch-mismatch error is a `ValueError` whose
message is one fixed string; two different unsupported extensions yield the
byte-identical message, so the message names neither the representation kind
nor the extension, contrary to the claim. -/
theorem save_image_unsupported_message_cex :
    save_image [7] wEnvSave ⟨"o.jpg", ".jpg"⟩ (PyImage.nd wArrSave) =
      SaveResult.raised
        (PyErr.valueError "Unsupported combination of image type and extension") ∧
    save_image [7] wEnvSave ⟨"o.png", ".png"⟩ (PyImage.nd wArrSave) =
      SaveResult.raised
        (PyErr.valueError "Unsupported combination of image type and extension") := by
  exact ⟨by decide, by decide⟩

/-- C5 (amended): every (representation, extension) combination other than a
decoded image object (which is dispatched to the PIL saver whatever the
extension) or a raw numeric array with a `.tif`/`.tiff` extension fails by
raising a `ValueError` whose message is the fixed string
`Unsupported combination of image type and extension` — naming neither the
representation kind nor the extension.  It is raised directly rather than
routed through the print-and-exit handler used for I/O failures, so it is
surfaced differently from those. -/
theorem save_image_unsupported (srgb : ByteBlob) (env : SaveEnv)
    (path : PyPath) (a : NDArray)
    (h1 : lowerStr path.suffix ≠ ".tif")
    (h2 : lowerStr path.suffix ≠ ".tiff") :
    save_image srgb env path (PyImage.nd a) =
      SaveResult.raised
        (PyErr.valueError "Unsupported combination of image type and extension") := by
  simp [save_image, h1, h2]

theorem save_image_unsupported_witness :
    save_image [7] wEnvSave ⟨"o.webp", ".webp"⟩ (PyImage.nd wArrSave) =
      SaveResult.raised
        (PyErr.valueError "Unsupported combination of image type and extension") := by
  exact save_image_unsupported [7] wEnvSave ⟨"o.webp", ".webp"⟩ wArrSave
    (by decide) (by decide)

/-! ### C6 -/

theorem devType_card_eq_one (devices : List TorchDevice) :
    (devices.map TorchDevice.devType).toFinset.card = 1 ↔
      devices ≠ [] ∧ ∃ c, ∀ d ∈ devices, d.devType = c := by
  constructor
  · intro h
    obtain ⟨c, hc⟩ := Finset.card_eq_one.mp h
    refine ⟨?_, c, ?_⟩
    · rintro rfl
      exact Finset.singleton_ne_empty c hc.symm
    · intro d hd
      have hmem : d.devType ∈ (devices.map TorchDevice.devType).toFinset := by
        rw [List.mem_toFinset]
        exact List.mem_map_of_mem _ hd
      rw [hc] at hmem
      simpa using hmem
  · rintro ⟨hne, c, hc⟩
    have hset : (devices.map TorchDevice.devType).toFinset = {c} := by
      ext x
      simp only [List.mem_toFinset, List.mem_map, Finset.mem_singleton]
      constructor
      · rintro ⟨d, hd, rfl⟩
        exact hc d hd
      · rintro rfl
        cases devices with
        | nil => exact absurd rfl hne
        | cons d ds =>
          exact ⟨d, List.mem_cons_self _ _, hc d (List.mem_cons_self _ _)⟩
    rw [hset]
    exact Finset.card_singleton c

theorem exists_uniform_devType_iff (devices : List TorchDevice) :
    (∃ c, ∀ d ∈ devices, d.devType = c) ↔
      ∀ d1 ∈ devices, ∀ d2 ∈ devices, d1.devType = d2.devType := by
  constructor
  · rintro ⟨c, hc⟩ d1 h1 d2 h2
    rw [hc d1 h1, hc d2 h2]
  · intro h
    cases devices with
    | nil => exact ⟨DevType.cpu, by simp⟩
    | cons d ds =>
      exact ⟨d.devType, fun x hx => h x hx d (List.mem_cons_self _ _)⟩

/-- C6: the device validation rejects fatally (prints and exits with status
1) exactly when the list has zero devices, more than two devices, or
devices of more than one device class; it accepts exactly the lists of one
or two devices of a single class. -/
theorem validate_devices_exactly (devices : List TorchDevice) :
    (validate_devices devices = none ↔
      1 ≤ devices.length ∧ devices.length ≤ 2 ∧
        ∃ c, ∀ d ∈ devices, d.devType = c) ∧
    ((∃ cm, validate_devices devices = some cm) ↔
      devices.length = 0 ∨ 2 < devices.length ∨
        ∃ d1 ∈ devices, ∃ d2 ∈ devices, d1.devType ≠ d2.devType) ∧
    (∀ cm, validate_devices devices = some cm → cm.1 = 1) := by
  have hnone : validate_devices devices = none ↔
      ((devices.map TorchDevice.devType).toFinset.card = 1 ∧
        (1 ≤ devices.length ∧ devices.length ≤ 2)) := by
    unfold validate_devices
    split
    · next hcond => simp [hcond]
    · next hcond =>
      rw [not_not] at hcond
      split
      · next hlen => simp [hcond, hlen]
      · next hlen =>
        rw [not_not] at hlen
        simp [hcond, hlen]
  have key : validate_devices devices = none ↔
      1 ≤ devices.length ∧ devices.length ≤ 2 ∧
        ∃ c, ∀ d ∈ devices, d.devType = c := by
    rw [hnone, devType_card_eq_one]
    constructor
    · rintro ⟨⟨hne, hu⟩, h1, h2⟩
      exact ⟨h1, h2, hu⟩
    · rintro ⟨h1, h2, hu⟩
      refine ⟨⟨?_, hu⟩, h1, h2⟩
      intro hcontra
      rw [hcontra] at h1
      simp at h1
  refine ⟨key, ?_, ?_⟩
  · rw [Option.ne_none_iff_exists'.symm, ne_eq, key]
    constructor
    · intro h
      by_cases ha : 1 ≤ devices.length
      · by_cases hb : devices.length ≤ 2
        · right; right
          have hnu : ¬∃ c, ∀ d ∈ devices, d.devType = c := fun hu =>
            h ⟨ha, hb, hu⟩
          rw [exists_uniform_devType_iff] at hnu
          push_neg at hnu
          exact hnu
        · right; left; omega
      · left; omega
    · rintro (h | h | ⟨d1, h1, d2, h2, hne⟩) ⟨hl1, hl2, c, hc⟩
      · omega
      · omega
      · exact hne (by rw [hc d1 h1, hc d2 h2])
  · intro cm hcm
    unfold validate_devices at hcm
    split at hcm
    · cases hcm; rfl
    · split at hcm
      · cases hcm; rfl
      · cases hcm

theorem validate_devices_exactly_witness :
    validate_devices [⟨DevType.cpu, none⟩] = none := by
  exact (validate_devices_exactly [⟨DevType.cpu, none⟩]).1.mpr
    ⟨by decide, by decide, DevType.cpu, by decide⟩

/-! ### C7 -/

theorem validate_torch_devices (b : Bool) :
    validate_devices (torch_devices b) = none := by
  cases b <;> decide

theorem stylize_tail_endScale (srgb : ByteBlob) (env : StylizeEnv)
    (sd : PyPath) (base : StylizeTrace) :
    (stylize_tail srgb env sd base).2.endScale = base.endScale := by
  unfold stylize_tail
  split
  · rfl
  · split <;> rfl

/-- C7: when the stylize invocation is interrupted by `KeyboardInterrupt`,
the run swallows the interrupt, retrieves the result, invokes `save_image`
exactly once when a (possibly partial) result is available (and completes
without raising when the encoder write succeeds), and completes without
raising and with zero save invocations when the retrieved result is
`None`. -/
theorem stylize_cancellation (srgb : ByteBlob) (env : StylizeEnv)
    (cp sp : String) (sd : PyPath) (cimg simg : Image)
    (c1 c2 : List ConvCall)
    (hc : load_image srgb env.loadContent none = LoadOutcome.ok cimg c1)
    (hs : load_image srgb env.loadStyle none = LoadOutcome.ok simg c2)
    (hkb : env.stStylize = Except.error PyErr.keyboardInterrupt) :
    (env.stGetImage = none →
      stylize srgb env cp sp sd =
        (RunOutcome.completed,
          ⟨torch_devices env.cudaAvailable,
            some (max cimg.width cimg.height), true, []⟩)) ∧
    (∀ out, env.stGetImage = some out →
      (stylize srgb env cp sp sd).2.saveCalls = [(sd, out)] ∧
        (∀ k, save_image srgb env.saveEnv sd out = SaveResult.wrotePil k →
          (stylize srgb env cp sp sd).1 = RunOutcome.completed) ∧
        (∀ t, save_image srgb env.saveEnv sd out = SaveResult.wroteTiff t →
          (stylize srgb env cp sp sd).1 = RunOutcome.completed)) := by
  constructor
  · intro hget
    simp [stylize, hc, hs, validate_torch_devices, hkb, stylize_tail, hget]
  · intro out hget
    refine ⟨?_, ?_, ?_⟩
    · cases hsave : save_image srgb env.saveEnv sd out <;>
        simp [stylize, hc, hs, validate_torch_devices, hkb, stylize_tail,
          hget, hsave]
    · intro k hk
      simp [stylize, hc, hs, validate_torch_devices, hkb, stylize_tail,
        hget, hk]
    · intro t ht
      simp [stylize, hc, hs, validate_torch_devices, hkb, stylize_tail,
        hget, ht]

/-- Concrete load environment for the C7 witness. -/
def wLoadC7 : LoadEnv :=
  { openImage := Except.ok ⟨3, 2, Mode.RGB, [1], some [7]⟩
    readProof := Except.ok [9]
    cms := fun i _ _ m => Except.ok { i with mode := m }
    rgbCast := fun _ d => d }

/-- Concrete job environment for the C7 witness: the stylize call is
interrupted and a partial result is available. -/
def wEnvC7 : StylizeEnv :=
  { loadContent := wLoadC7
    loadStyle := wLoadC7
    cudaAvailable := false
    stStylize := Except.error PyErr.keyboardInterrupt
    stGetImage := some (PyImage.pil ⟨3, 2, Mode.RGB, [1], none⟩)
    saveEnv := ⟨fun _ => Except.ok (), fun _ => Except.ok ()⟩ }

theorem stylize_cancellation_witness :
    (stylize [7] wEnvC7 "c.jpg" "s.jpg" ⟨"o.png", ".png"⟩).2.saveCalls =
      [(⟨"o.png", ".png"⟩, PyImage.pil ⟨3, 2, Mode.RGB, [1], none⟩)] := by
  have h := (stylize_cancellation [7] wEnvC7 "c.jpg" "s.jpg" ⟨"o.png", ".png"⟩
    ⟨3, 2, Mode.RGB, [1], some [7]⟩ ⟨3, 2, Mode.RGB, [1], some [7]⟩ [] []
    (by decide) (by decide) rfl).2
  exact (h _ rfl).1

/-! ### C9 -/

/-- C9: for every content image the batch path computes `end_scale` as the
larger of the content image width and height (not via `get_safe_scale`); in
particular a 2000 by 1000 content image gives `end_scale = 2000`. -/
theorem stylize_end_scale (srgb : ByteBlob) (env : StylizeEnv)
    (cp sp : String) (sd : PyPath) (cimg simg : Image) (c1 c2 : List ConvCall)
    (hc : load_image srgb env.loadContent none = LoadOutcome.ok cimg c1)
    (hs : load_image srgb env.loadStyle none = LoadOutcome.ok simg c2) :
    (stylize srgb env cp sp sd).2.endScale =
      some (max cimg.width cimg.height) ∧
    (cimg.width = 2000 → cimg.height = 1000 →
      (stylize srgb env cp sp sd).2.endScale = some 2000) := by
  have h1 : (stylize srgb env cp sp sd).2.endScale =
      some (max cimg.width cimg.height) := by
    unfold stylize
    simp only [hc, hs, validate_torch_devices]
    cases hst : env.stStylize with
    | ok u => rw [stylize_tail_endScale]
    | error e =>
      cases e with
      | keyboardInterrupt => rw [stylize_tail_endScale]
      | osError n m => rfl
      | pyCMSError m => rfl
      | valueError m => rfl
  refine ⟨h1, fun hw hh => ?_⟩
  rw [h1, hw, hh]
  decide

/-- Concrete load environment for the C9 witness: a 2000 by 1000 content
image tagged with the canonical profile. -/
def wLoadC9 : LoadEnv :=
  { openImage := Except.ok ⟨2000, 1000, Mode.RGB, [1], some [7]⟩
    readProof := Except.ok [9]
    cms := fun i _ _ m => Except.ok { i with mode := m }
    rgbCast := fun _ d => d }

/-- Concrete job environment for the C9 witness. -/
def wEnvC9 : StylizeEnv :=
  { loadContent := wLoadC9
    loadStyle := wLoadC9
    cudaAvailable := false
    stStylize := Except.ok ()
    stGetImage := some (PyImage.pil ⟨2000, 1000, Mode.RGB, [1], none⟩)
    saveEnv := ⟨fun _ => Except.ok (), fun _ => Except.ok ()⟩ }

theorem stylize_end_scale_witness :
    (stylize [7] wEnvC9 "c.jpg" "s.jpg" ⟨"o.png", ".png"⟩).2.endScale =
      some 2000 := by
  exact (stylize_end_scale [7] wEnvC9 "c.jpg" "s.jpg" ⟨"o.png", ".png"⟩
    ⟨2000, 1000, Mode.RGB, [1], some [7]⟩ ⟨2000, 1000, Mode.RGB, [1], some [7]⟩
    [] [] (by decide) (by decide)).2 rfl rfl

/-! ### C8 and C10: the scale estimator -/

theorem nat_sqrt_floor_rat (x : ℚ) (hx : 0 ≤ x) :
    Nat.sqrt (⌊x⌋.toNat) = ⌊Real.sqrt ((x : ℝ))⌋₊ := by
  have hfl : (0 : ℤ) ≤ ⌊x⌋ := Int.floor_nonneg.mpr hx
  have key : ∀ m : ℕ,
      m ≤ Nat.sqrt (⌊x⌋.toNat) ↔ m ≤ ⌊Real.sqrt ((x : ℝ))⌋₊ := by
    intro m
    rw [Nat.le_sqrt, Int.le_toNat hfl, Int.le_floor,
      Nat.le_floor_iff (Real.sqrt_nonneg _),
      Real.le_sqrt (by positivity) (by positivity)]
    constructor
    · intro hle
      have hle2 : (((m * m : ℕ) : ℝ)) ≤ ((x : ℝ)) := by exact_mod_cast hle
      calc ((m : ℝ)) ^ 2 = ((m * m : ℕ) : ℝ) := by push_cast; ring
        _ ≤ (x : ℝ) := hle2
    · intro hle
      have hle2 : (((m * m : ℕ) : ℝ)) ≤ ((x : ℝ)) := by
        calc ((m * m : ℕ) : ℝ) = ((m : ℝ)) ^ 2 := by push_cast; ring
          _ ≤ (x : ℝ) := hle
      exact_mod_cast hle2
  exact le_antisymm ((key _).mp le_rfl) ((key _).mpr le_rfl)

theorem floorSqrtMul_eq (q : ℚ) (hq : 0 ≤ q) (d : Nat) :
    floorSqrtMul q d = ⌊Real.sqrt ((q : ℝ)) * (d : ℝ)⌋₊ := by
  unfold floorSqrtMul
  rw [nat_sqrt_floor_rat _ (by positivity)]
  congr 1
  rw [show (((q * (d : ℚ) * (d : ℚ)) : ℚ) : ℝ) = (q : ℝ) * ((d : ℝ) * (d : ℝ))
      from by push_cast; ring]
  rw [Real.sqrt_mul (by exact_mod_cast hq), Real.sqrt_mul_self (by positivity)]

theorem floorSqrtMul_one (d : Nat) : floorSqrtMul 1 d = d := by
  unfold floorSqrtMul
  rw [one_mul,
    show ((d : ℚ) * (d : ℚ)) = ((d * d : ℕ) : ℚ) from by push_cast; ring,
    Int.floor_natCast, Int.toNat_natCast]
  exact Nat.sqrt_eq d

theorem floorSqrtMul_mono (q : ℚ) (hq : 0 ≤ q) {d1 d2 : Nat} (h : d1 ≤ d2) :
    floorSqrtMul q d1 ≤ floorSqrtMul q d2 := by
  unfold floorSqrtMul
  apply Nat.sqrt_le_sqrt
  apply Int.toNat_le_toNat
  apply Int.floor_le_floor
  have hc : (d1 : ℚ) ≤ (d2 : ℚ) := by exact_mod_cast h
  have h1 : (0 : ℚ) ≤ (d1 : ℚ) := by positivity
  have hdd : (d1 : ℚ) * (d1 : ℚ) ≤ (d2 : ℚ) * (d2 : ℚ) :=
    mul_le_mul hc hc h1 (le_trans h1 hc)
  calc q * (d1 : ℚ) * (d1 : ℚ) = q * ((d1 : ℚ) * (d1 : ℚ)) := by ring
    _ ≤ q * ((d2 : ℚ) * (d2 : ℚ)) := mul_le_mul_of_nonneg_left hdd hq
    _ = q * (d2 : ℚ) * (d2 : ℚ) := by ring

theorem pyDiv_of_ne_zero (a b : Nat) (hb : b ≠ 0) :
    pyDiv a b = some ((a : ℚ) / (b : ℚ)) := by
  unfold pyDiv
  rw [if_neg hb]

theorem get_safe_scale_eq_formula (w h dim : Nat) (hw : 0 < w) (hh : 0 < h) :
    get_safe_scale w h dim =
      some ⌊Real.sqrt (((max w h : ℕ) : ℝ) / ((min w h : ℕ) : ℝ)) *
        (dim : ℝ)⌋₊ := by
  by_cases hgt : w > h
  · have hdivq : (0 : ℚ) ≤ (w : ℚ) / (h : ℚ) := by positivity
    simp only [get_safe_scale, pyDiv_of_ne_zero w h hh.ne', hgt, if_true]
    rw [floorSqrtMul_eq _ hdivq dim]
    have hq : (((w : ℚ) / (h : ℚ) : ℚ) : ℝ) =
        ((max w h : ℕ) : ℝ) / ((min w h : ℕ) : ℝ) := by
      rw [Nat.max_eq_left (le_of_lt hgt), Nat.min_eq_right (le_of_lt hgt)]
      push_cast
      ring
    rw [hq]
  · have hdivq : (0 : ℚ) ≤ (h : ℚ) / (w : ℚ) := by positivity
    simp only [get_safe_scale, pyDiv_of_ne_zero h w hw.ne', hgt, if_false]
    rw [floorSqrtMul_eq _ hdivq dim]
    have hle : w ≤ h := Nat.le_of_not_lt hgt
    have hq : (((h : ℚ) / (w : ℚ) : ℚ) : ℝ) =
        ((max w h : ℕ) : ℝ) / ((min w h : ℕ) : ℝ) := by
      rw [Nat.max_eq_right hle, Nat.min_eq_left hle]
      push_cast
      ring
    rw [hq]

/-- C8: for positive `w`, `h`, `dim`, `get_safe_scale w h dim` equals the
integer floor of `sqrt(max(w,h)/min(w,h)) * dim`; it is symmetric in `w`
and `h`; it returns exactly `dim` when `w = h`; it is monotone in `dim`;
and `get_safe_scale 1000 500 512 = 724`.  (Python evaluates the formula in
IEEE floating point; the embedding computes the same formula in exact
arithmetic.) -/
theorem get_safe_scale_spec (w h dim dim2 : Nat)
    (hw : 0 < w) (hh : 0 < h) (hdim : 0 < dim) (hmono : dim ≤ dim2) :
    get_safe_scale w h dim =
      some ⌊Real.sqrt (((max w h : ℕ) : ℝ) / ((min w h : ℕ) : ℝ)) *
        (dim : ℝ)⌋₊ ∧
    get_safe_scale w h dim = get_safe_scale h w dim ∧
    (w = h → get_safe_scale w h dim = some dim) ∧
    (∀ a b, get_safe_scale w h dim = some a →
      get_safe_scale w h dim2 = some b → a ≤ b) ∧
    get_safe_scale 1000 500 512 = some 724 := by
  refine ⟨get_safe_scale_eq_formula w h dim hw hh, ?_, ?_, ?_, ?_⟩
  · unfold get_safe_scale
    rcases Nat.lt_trichotomy w h with hlt | heq | hgt
    · rw [if_neg (by omega), if_pos hlt]
    · subst heq; rfl
    · rw [if_pos hgt, if_neg (by omega)]
  · rintro rfl
    have hdiv : (w : ℚ) / (w : ℚ) = 1 :=
      div_self (by exact_mod_cast hw.ne')
    simp only [get_safe_scale, pyDiv_of_ne_zero w w hw.ne', lt_irrefl w,
      if_false, hdiv, floorSqrtMul_one]
  · intro a b ha hb
    by_cases hgt : w > h
    · simp only [get_safe_scale, pyDiv_of_ne_zero w h hh.ne', hgt, if_true,
        Option.some.injEq] at ha hb
      rw [← ha, ← hb]
      exact floorSqrtMul_mono _ (by positivity) hmono
    · simp only [get_safe_scale, pyDiv_of_ne_zero h w hw.ne', hgt, if_false,
        Option.some.injEq] at ha hb
      rw [← ha, ← hb]
      exact floorSqrtMul_mono _ (by positivity) hmono
  · have hq : ((1000 : ℕ) : ℚ) / ((500 : ℕ) : ℚ) = 2 := by norm_num
    have hgt : (1000 : ℕ) > 500 := by norm_num
    simp only [get_safe_scale, pyDiv_of_ne_zero 1000 500 (by norm_num), hgt,
      if_true, hq, Option.some.injEq]
    have harg : (2 : ℚ) * ((512 : ℕ) : ℚ) * ((512 : ℕ) : ℚ) =
        ((524288 : ℕ) : ℚ) := by
      push_cast
      norm_num
    unfold floorSqrtMul
    rw [harg, Int.floor_natCast, Int.toNat_natCast]
    rw [show (524288 : ℕ) = 724 * 724 + 112 from by norm_num]
    rw [Nat.sqrt_add_eq 724 (by norm_num)]

theorem get_safe_scale_spec_witness :
    (0 : Nat) < 1000 ∧ (0 : Nat) < 500 ∧ (0 : Nat) < 512 ∧
      get_safe_scale 1000 500 512 = some 724 := by
  refine ⟨by norm_num, by norm_num, by norm_num, ?_⟩
  exact (get_safe_scale_spec 1000 500 512 512 (by norm_num) (by norm_num)
    (by norm_num) le_rfl).2.2.2.2

/-! ### C10 -/

/-- C10: `get_safe_scale` is not total on all integer inputs: `h = 0` with
`w > 0` takes the `w / h` branch and divides by zero, and `w = 0` (where
`h ≥ w` always holds) takes the `h / w` branch and divides by zero —
modelled as `none`; it is total whenever the smaller of `w` and `h` is
nonzero. -/
theorem get_safe_scale_div_by_zero (w h dim : Nat) :
    (h = 0 → 0 < w → get_safe_scale w h dim = none) ∧
    (w = 0 → get_safe_scale w h dim = none) ∧
    (0 < min w h → ∃ n, get_safe_scale w h dim = some n) := by
  refine ⟨?_, ?_, ?_⟩
  · rintro rfl hw
    unfold get_safe_scale pyDiv
    rw [if_pos hw, if_pos rfl]
  · rintro rfl
    unfold get_safe_scale pyDiv
    rw [if_neg (by omega), if_pos rfl]
  · intro hmin
    rw [Nat.lt_min] at hmin
    unfold get_safe_scale pyDiv
    by_cases hgt : w > h
    · rw [if_pos hgt, if_neg hmin.2.ne']
      exact ⟨_, rfl⟩
    · rw [if_neg hgt, if_neg hmin.1.ne']
      exact ⟨_, rfl⟩

theorem get_safe_scale_div_by_zero_witness :
    get_safe_scale 5 0 3 = none := by
  exact (get_safe_scale_div_by_zero 5 0 3).1 rfl (by norm_num)

end BatchStyle
